import Mathlib

/-!
Shallow embedding of `src/scripts/get_batch_status.py` (AWS Batch status
report script) and proofs about it.

Conventions used throughout:
* Python exceptions are modelled by `Except PyErr`; an uncaught exception is
  an `Except.error` result.
* AWS service calls are modelled by explicit inputs (page lists, fetch
  functions, response streams): the embedding is parametric in the data the
  service would return.
* Python's `'key' in str(obj)` substring tests are modelled faithfully: each
  relevant response object gets a `pyStr…` rendering (a `List Char` mirroring
  the textual form of the Python dict, with the fields the embedding models),
  and the test is an infix check on that rendering.
* Machine integers: AWS timestamps are plain mathematical integers (`Int`),
  matching Python's unbounded ints; metric values are `ℚ` (Python floats are
  used only for averaging here, no rounding behaviour is relied upon).
-/

set_option maxRecDepth 40000

deriving instance DecidableEq for Except

namespace BatchStatus

/-- Python exception outcomes distinguished by the embedding. -/
inductive PyErr where
  | keyError (k : String)
  | indexError
  | unboundLocal
  | serviceError
  | valueError
  deriving Repr, DecidableEq

/-- Substring test `needle in str(obj)`: is the rendering of `needle` an
infix of the rendered characters `hay`? -/
def hasSub (needle : String) (hay : List Char) : Bool :=
  decide (needle.toList <:+: hay)

/- ### list_jobs responses (`get_batch_job_id_list`, lines 57-106) -/

/-- One entry of `response['jobSummaryList']` (the fields the script reads). -/
structure JobSummary where
  jobId : String
  createdAt : Int
  deriving Repr, DecidableEq

/-- One `list_jobs` response: the job summaries plus the optional
`nextToken` continuation key. -/
structure ListJobsPage where
  jobSummaryList : List JobSummary
  nextToken : Option String
  deriving Repr, DecidableEq

/-- Comma-join of rendered fragments, as in Python's list rendering. -/
def joinComma : List (List Char) → List Char
  | [] => []
  | [x] => x
  | x :: y :: rest => x ++ ", ".toList ++ joinComma (y :: rest)

/-- Python `str(...)` of one job-summary dict (modelled fields only). -/
def pyStrJobSummary (j : JobSummary) : List Char :=
  "\x7b\x27jobId\x27: \x27".toList ++ j.jobId.toList
    ++ "\x27, \x27createdAt\x27: ".toList ++ (toString j.createdAt).toList
    ++ "\x7d".toList

/-- The literal chunk `", 'nextToken': '"` preceding a token value in the
rendering of a response that carries one. -/
def tokChunkL : List Char := ", \x27nextToken\x27: \x27".toList

/-- Rendering of the optional `nextToken` entry of a response dict. -/
def pyStrTok : Option String → List Char
  | none => []
  | some t => tokChunkL ++ t.toList ++ "\x27".toList

/-- Python `str(response)` for a `list_jobs` response (modelled fields). -/
def pyStrPage (p : ListJobsPage) : List Char :=
  "\x7b\x27jobSummaryList\x27: [".toList
    ++ joinComma (p.jobSummaryList.map pyStrJobSummary)
    ++ "]".toList
    ++ pyStrTok p.nextToken
    ++ "\x7d".toList

/-- Lines 78-80 / 93-95: keep the ids of the summaries on one page whose
`createdAt` is strictly greater than the epoch cutoff. -/
def filterPage (cutoff : Int) (p : ListJobsPage) : List String :=
  (p.jobSummaryList.filter (fun x => cutoff < x.createdAt)).map (fun x => x.jobId)

/-- Lines 85-100, the `while nextToken != None` pagination loop for one
status.  The service's successive responses are the `pages` list; the loop
runs while the previous response carried a token.  Returns the filtered ids
together with the number of `list_jobs` calls made by the loop. -/
def whileLoop (cutoff : Int) : Option String → List ListJobsPage → List String × Nat
  | none, _ => ([], 0)
  | some _, [] => ([], 0)
  | some _, p :: rest =>
    let r := whileLoop cutoff p.nextToken rest
    (filterPage cutoff p ++ r.1, r.2 + 1)

/-- Lines 69-103 for a single status: first `list_jobs` call, the quirky
`nextToken = response['nextToken'] if 'nextToken' in str(response) else None`
(line 82, a substring test on the textual response, followed by a plain key
lookup that raises `KeyError` when the key is absent), then the pagination
loop.  `pages` is the sequence of responses the service returns; an empty
`pages` means the service call itself fails.  Returns the accumulated ids and
the total number of `list_jobs` calls. -/
def getStatusJobs (cutoff : Int) (pages : List ListJobsPage) :
    Except PyErr (List String × Nat) :=
  match pages with
  | [] => Except.error PyErr.serviceError
  | p :: rest =>
    let ids0 := filterPage cutoff p
    if hasSub "nextToken" (pyStrPage p) then
      match p.nextToken with
      | some _ =>
        let r := whileLoop cutoff p.nextToken rest
        Except.ok (ids0 ++ r.1, 1 + r.2)
      | none => Except.error (PyErr.keyError "nextToken")
    else
      Except.ok (ids0, 1)

/-- Line 63: the three statuses the script queries, in order. -/
def status_needed : List String := ["SUCCEEDED", "FAILED", "RUNNING"]

/-- Lines 57-106, `get_batch_job_id_list`: run the per-status listing for the
three statuses in order and concatenate the id lists.  `svc` maps a status to
the page sequence the service returns for it; an uncaught exception in any
status aborts the whole function (there is no try/except here). -/
def get_batch_job_id_list (cutoff : Int) (svc : String → List ListJobsPage) :
    Except PyErr (List String) :=
  status_needed.foldlM
    (fun acc st => do
      let r ← getStatusJobs cutoff (svc st)
      Except.ok (acc ++ r.1))
    []

/- Chain conditions on a finite page sequence, as in the claims: every page
carries a continuation token except the last. -/

/-- `chainedPages ps = true` iff `ps` is nonempty and each page except the
last carries a `nextToken` (the last carries none). -/
def chainedPages : List ListJobsPage → Bool
  | [] => false
  | [p] => p.nextToken.isNone
  | p :: q :: rest => p.nextToken.isSome && chainedPages (q :: rest)

/-- The first response's textual form contains `'nextToken'` only when the
key is actually present (rules out the spurious-substring corner of line 82). -/
def cleanFirstPage : List ListJobsPage → Bool
  | [] => true
  | p :: _ => if p.nextToken.isSome then true else ! hasSub "nextToken" (pyStrPage p)

/- ### describe_jobs responses (`get_job_details`, lines 109-157) -/

/-- A value placed in the job table: requested vcpus/memory are either the
integer direct fields or the string `value` of a resource requirement. -/
inductive JVal where
  | i (n : Int)
  | s (v : String)
  deriving Repr, DecidableEq

/-- One entry of a container's `resourceRequirements` list, e.g.
`{'value': '4', 'type': 'VCPU'}`.  (`rtype` models the `type` key.) -/
structure ResourceRequirement where
  value : String
  rtype : String
  deriving Repr, DecidableEq

/-- The `container` object of a job detail (modelled fields: the ones the
script reads).  Optional fields model possibly-absent dict keys. -/
structure Container where
  image : String
  vcpus : Option Int
  memory : Option Int
  resourceRequirements : List ResourceRequirement
  containerInstanceArn : Option String
  taskArn : Option String
  deriving Repr, DecidableEq

/-- The container object of one entry of a job's `attempts` list. -/
structure AttemptContainer where
  containerInstanceArn : String
  taskArn : String
  reason : Option String
  deriving Repr, DecidableEq

/-- One entry of a job's `attempts` list. -/
structure Attempt where
  container : AttemptContainer
  deriving Repr, DecidableEq

/-- One entry of `response['jobs']` from `describe_jobs`. -/
structure JobDetail where
  jobName : String
  status : String
  startedAt : Option Int
  stoppedAt : Option Int
  container : Container
  attempts : List Attempt
  deriving Repr, DecidableEq

/-- Rendering of one resource requirement dict. -/
def pyStrRR (r : ResourceRequirement) : List Char :=
  "\x7b\x27value\x27: \x27".toList ++ r.value.toList
    ++ "\x27, \x27type\x27: \x27".toList ++ r.rtype.toList
    ++ "\x27\x7d".toList

/-- Rendering of an optional string-valued dict entry named `k`. -/
def pyStrOptStr (k : String) : Option String → List Char
  | none => []
  | some v => ", \x27".toList ++ k.toList ++ "\x27: \x27".toList ++ v.toList ++ "\x27".toList

/-- The literal chunk `", 'vcpus': "` present whenever the key exists. -/
def vcpusChunkL : List Char := ", \x27vcpus\x27: ".toList

/-- The literal chunk `", 'memory': "` present whenever the key exists. -/
def memoryChunkL : List Char := ", \x27memory\x27: ".toList

/-- Rendering of an optional integer-valued dict entry with literal chunk `c`. -/
def pyStrOptInt (c : List Char) : Option Int → List Char
  | none => []
  | some n => c ++ (toString n).toList

/-- Python `str(container)` for a job's container dict (modelled fields). -/
def pyStrContainer (c : Container) : List Char :=
  "\x7b\x27image\x27: \x27".toList ++ c.image.toList ++ "\x27".toList
    ++ pyStrOptInt vcpusChunkL c.vcpus
    ++ pyStrOptInt memoryChunkL c.memory
    ++ ", \x27resourceRequirements\x27: [".toList
    ++ joinComma (c.resourceRequirements.map pyStrRR)
    ++ "]".toList
    ++ pyStrOptStr "containerInstanceArn" c.containerInstanceArn
    ++ pyStrOptStr "taskArn" c.taskArn
    ++ "\x7d".toList

/-- Python `str(attempt)` for one attempts entry (modelled fields). -/
def pyStrAttempt (a : Attempt) : List Char :=
  "\x7b\x27container\x27: \x7b\x27containerInstanceArn\x27: \x27".toList
    ++ a.container.containerInstanceArn.toList
    ++ "\x27, \x27taskArn\x27: \x27".toList ++ a.container.taskArn.toList
    ++ "\x27".toList
    ++ pyStrOptStr "reason" a.container.reason
    ++ "\x7d\x7d".toList

/-- Line 143: `container['vcpus'] if 'vcpus' in str(container) else
container['resourceRequirements'][0]['value']`.  The guard is a substring
test on the rendered container; the direct lookup raises `KeyError` when the
key is absent, the positional access raises `IndexError` when the list is too
short. -/
def get_vcpus (c : Container) : Except PyErr JVal :=
  if hasSub "vcpus" (pyStrContainer c) then
    match c.vcpus with
    | some v => Except.ok (JVal.i v)
    | none => Except.error (PyErr.keyError "vcpus")
  else
    match c.resourceRequirements.get? 0 with
    | some r => Except.ok (JVal.s r.value)
    | none => Except.error PyErr.indexError

/-- Line 144: the same pattern for `memory`, with positional index 1. -/
def get_memory (c : Container) : Except PyErr JVal :=
  if hasSub "memory" (pyStrContainer c) then
    match c.memory with
    | some v => Except.ok (JVal.i v)
    | none => Except.error (PyErr.keyError "memory")
  else
    match c.resourceRequirements.get? 1 with
    | some r => Except.ok (JVal.s r.value)
    | none => Except.error PyErr.indexError

/-- `arn.split("/")[-1]`: the final `/`-separated segment of a string. -/
def lastSegAux : List Char → List Char → List Char
  | [], seg => seg
  | ch :: rest, seg => if ch = '/' then lastSegAux rest [] else lastSegAux rest (seg ++ [ch])

/-- `arn.split("/")[-1]` on a string. -/
def lastSeg (s : String) : String :=
  String.mk (lastSegAux s.toList [])

/-- One row of the job-details table (the dict appended on lines 136-150). -/
structure JobRecord where
  job_id : String
  job_name : String
  job_status : String
  started_at : Option Int
  stopped_at : Option Int
  image : String
  vcpus : JVal
  memory : JVal
  num_attempts : Nat
  num_of_instances : Nat
  instance_arn_endings : String
  task_id : String
  reasons : Option String
  deriving Repr, DecidableEq

/-- Dict-key access that raises `KeyError k` on a missing key. -/
def reqKey (k : String) : Option α → Except PyErr α
  | some v => Except.ok v
  | none => Except.error (PyErr.keyError k)

/-- Lines 130-134, one step of the reasons accumulation: `'reason' in str(i)`
is a substring test on the rendered attempt; `if not reasons` treats both
`None` and the empty string as falsy. -/
def attemptReason (acc : Option String) (a : Attempt) : Except PyErr (Option String) :=
  if hasSub "reason" (pyStrAttempt a) then do
    let r ← reqKey "reason" a.container.reason
    if acc = none ∨ acc = some "" then
      Except.ok (some r)
    else
      Except.ok (some (acc.getD "" ++ "|" ++ r))
  else
    Except.ok acc

/-- Lines 121-150, the body of the per-job `try`: index into `response['jobs']`,
read the status, compute instance/task endings (for `RUNNING` from the live
container, otherwise deduplicated over the attempts — Python's `list(set(…))`
is modelled as first-occurrence deduplication), fold the reasons, and build
the row (vcpus before memory, as in the dict literal). -/
def parseJob (job_id : String) (jobs : List JobDetail) : Except PyErr JobRecord := do
  let job ← match jobs.head? with
    | some j => Except.ok j
    | none => Except.error PyErr.indexError
  let job_status := job.status
  let arnsTids ←
    if job_status = "RUNNING" then do
      let cia ← reqKey "containerInstanceArn" job.container.containerInstanceArn
      let ta ← reqKey "taskArn" job.container.taskArn
      Except.ok ([lastSeg cia], [lastSeg ta])
    else
      Except.ok ((job.attempts.map (fun a => lastSeg a.container.containerInstanceArn)).dedup,
        (job.attempts.map (fun a => lastSeg a.container.taskArn)).dedup)
  let reasons ← job.attempts.foldlM attemptReason none
  let vcpus ← get_vcpus job.container
  let memory ← get_memory job.container
  Except.ok
    { job_id := job_id
      job_name := job.jobName
      job_status := job_status
      started_at := job.startedAt
      stopped_at := job.stoppedAt
      image := job.container.image
      vcpus := vcpus
      memory := memory
      num_attempts := job.attempts.length
      num_of_instances := arnsTids.1.length
      instance_arn_endings := String.intercalate "|" arnsTids.1
      task_id := String.intercalate "|" arnsTids.2
      reasons := reasons }

/-- Lines 119-152, the per-job loop.  `fetch` models `describe_jobs` for one
id (`Except.error` = the call raises).  `resp` threads the Python local
`response`: it is `none` until the first successful `describe_jobs`
assignment.  The bare `except:` logs a warning that interpolates `response`;
when `response` has never been bound this very line raises
`UnboundLocalError`, which is not caught and aborts the loop.  Otherwise the
failing job is skipped and the loop continues. -/
def processJobs (fetch : String → Except Unit (List JobDetail)) :
    List String → Option (List JobDetail) → List JobRecord →
    Except PyErr (List JobRecord)
  | [], _, acc => Except.ok acc
  | jid :: rest, resp, acc =>
    match fetch jid with
    | Except.error _ =>
      match resp with
      | none => Except.error PyErr.unboundLocal
      | some _ => processJobs fetch rest resp acc
    | Except.ok r =>
      match parseJob jid r with
      | Except.ok rec => processJobs fetch rest (some r) (acc ++ [rec])
      | Except.error _ => processJobs fetch rest (some r) acc

/-- `pd.to_datetime(col, errors="coerce", unit="ms")`: reinterprets the
epoch-millisecond integers as time instants (`None` becomes `NaT`); the
underlying integer value of each present entry is preserved. -/
def to_datetime_ms (x : Option Int) : Option Int := x

/-- Lines 155-156 applied to one row. -/
def convertTimes (r : JobRecord) : JobRecord :=
  { r with started_at := to_datetime_ms r.started_at,
           stopped_at := to_datetime_ms r.stopped_at }

/-- Lines 109-157, `get_job_details`: run the per-job loop, build the
dataframe and convert the time columns.  A dataframe built from an empty
record list has no columns at all, so `df['started_at']` on line 155 raises
`KeyError` in that case. -/
def get_job_details (fetch : String → Except Unit (List JobDetail))
    (ids : List String) : Except PyErr (List JobRecord) := do
  let recs ← processJobs fetch ids none []
  if recs.isEmpty then
    Except.error (PyErr.keyError "started_at")
  else
    Except.ok (recs.map convertTimes)

/- ### CloudWatch resource usage (`get_resource_usage`, lines 160-223) -/

/-- A `get_query_results` response as seen by the polling loop (line 192):
the script only inspects `status` there; the records are read afterwards. -/
structure QueryResponse where
  status : String
  deriving Repr, DecidableEq

/-- Lines 188-192, the inner completion loop: `response` starts as `None`, so
the body always runs at least once; each iteration sleeps one second and then
polls.  `polls i` is the response to the `i`-th `get_query_results` call.
`fuel` bounds the number of iterations we unfold; the Python loop has no such
bound, so a `none` result for every fuel models non-termination.  On exit the
result is `(number of iterations run, final response)`; each iteration slept
exactly one second, so the first component is also the seconds slept. -/
def pollLoopAux (polls : Nat → QueryResponse) : Nat → Nat → Option (Nat × QueryResponse)
  | _, 0 => none
  | i, fuel + 1 =>
    if (polls i).status = "Running" then
      pollLoopAux polls (i + 1) fuel
    else
      some (i + 1, polls i)

/-- The polling loop started from the first call. -/
def pollLoop (polls : Nat → QueryResponse) (fuel : Nat) : Option (Nat × QueryResponse) :=
  pollLoopAux polls 0 fuel

/-- The dict parsed from one log record by `ast.literal_eval` (line 197),
with the fields the script reads; absent keys are `none`. -/
structure LogValue where
  typ : String
  taskId : Option String
  containerInstanceId : Option String
  cpuUtilized : Option ℚ
  cpuReserved : Option ℚ
  memoryUtilized : Option ℚ
  memoryReserved : Option ℚ
  deriving Repr, DecidableEq

/-- One row appended to `final_output` (lines 199-208), and also one row of
the final averaged dataframe. -/
structure TaskSample where
  task_id : String
  container_instance_id : String
  cpu_used : ℚ
  cpu_passed : ℚ
  memory_used : ℚ
  memory_passed : ℚ
  deriving Repr, DecidableEq

/-- One raw query-result record: `none` when `ast.literal_eval` of its value
raises, otherwise the parsed dict. -/
abbrev RawRecord : Type := Option LogValue

/-- Lines 196-208 for one record: parse failures raise; a `'Task'`-typed
record yields a sample (a missing field raises `KeyError`, in the dict
literal's order); any other type is skipped. -/
def rowSample : RawRecord → Except PyErr (Option TaskSample)
  | none => Except.error PyErr.valueError
  | some v =>
    if v.typ = "Task" then do
      let t ← reqKey "TaskId" v.taskId
      let ci ← reqKey "ContainerInstanceId" v.containerInstanceId
      let cu ← reqKey "CpuUtilized" v.cpuUtilized
      let cr ← reqKey "CpuReserved" v.cpuReserved
      let mu ← reqKey "MemoryUtilized" v.memoryUtilized
      let mr ← reqKey "MemoryReserved" v.memoryReserved
      Except.ok (some
        { task_id := t
          container_instance_id := ci
          cpu_used := cu
          cpu_passed := cr
          memory_used := mu
          memory_passed := mr })
    else
      Except.ok none

/-- The record loop of one window: samples accumulated until the first
raising record, together with the exception if one was raised. -/
def processRows : List RawRecord → List TaskSample × Option PyErr
  | [] => ([], none)
  | r :: rs =>
    match rowSample r with
    | Except.error e => ([], some e)
    | Except.ok none => processRows rs
    | Except.ok (some s) =>
      let rest := processRows rs
      (s :: rest.1, rest.2)

/-- One query window as the service resolves it: either the
`start_query`/polling/`get_query_results` round fails (`Except.error`), or it
yields the window's result records. -/
abbrev Window : Type := Except Unit (List RawRecord)

/-- Lines 175-211, the window loop inside the `try`: windows run in order;
the first exception (service failure or record parse failure) stops the loop.
The `except` on lines 212-213 swallows it, so the function keeps whatever was
accumulated; the second component records the caught exception. -/
def runWindows : List Window → List TaskSample → List TaskSample × Option PyErr
  | [], acc => (acc, none)
  | w :: ws, acc =>
    match w with
    | Except.error _ => (acc, some PyErr.serviceError)
    | Except.ok rows =>
      let pr := processRows rows
      match pr.2 with
      | none => runWindows ws (acc ++ pr.1)
      | some e => (acc ++ pr.1, some e)

/-- The key of the pandas groupby on lines 218. -/
def sampleKey (s : TaskSample) : String × String :=
  (s.task_id, s.container_instance_id)

/-- Mean of a list of rationals (pandas column mean within a group). -/
def meanOf (l : List ℚ) : ℚ := l.sum / (l.length : ℚ)

/-- The averaged output row of one groupby key: the columnwise means over
the rows sharing that key. -/
def groupRow (rows : List TaskSample) (k : String × String) : TaskSample :=
  let grp := rows.filter (fun r => sampleKey r = k)
  { task_id := k.1
    container_instance_id := k.2
    cpu_used := meanOf (grp.map (fun r => r.cpu_used))
    cpu_passed := meanOf (grp.map (fun r => r.cpu_passed))
    memory_used := meanOf (grp.map (fun r => r.memory_used))
    memory_passed := meanOf (grp.map (fun r => r.memory_passed)) }

/-- Line 218, `groupby(['task_id','container_instance_id']).mean()`: one row
per distinct key, carrying the columnwise means of the rows sharing that key.
(pandas emits groups in sorted key order; this embedding emits them in
first-occurrence order — the row multiset is the same.) -/
def groupbyMean (rows : List TaskSample) : List TaskSample :=
  ((rows.map sampleKey).dedup).map (groupRow rows)

/-- Lines 160-223, `get_resource_usage`: accumulate over the windows (with
the outer exception swallowed), then, when at least one record was kept,
group-average and write the CSV; an empty accumulation is returned as-is. -/
def get_resource_usage (windows : List Window) : List TaskSample :=
  let acc := (runWindows windows []).1
  if 0 < acc.length then groupbyMean acc else acc

/-- Line 219: `task_resource_usage.csv` is written exactly when the
accumulated dataframe is nonempty; its contents are the averaged rows. -/
def resource_usage_csv (windows : List Window) : Option (List TaskSample) :=
  let acc := (runWindows windows []).1
  if 0 < acc.length then some (groupbyMean acc) else none

/-- The sample a raw record contributes when no exception occurs (only
`'Task'`-typed records contribute). -/
def taskSampleOf (r : RawRecord) : Option TaskSample :=
  match rowSample r with
  | Except.ok s => s
  | Except.error _ => none

/-- `true` when every record of the window parses without raising. -/
def windowClean : Window → Bool
  | Except.error _ => false
  | Except.ok rows => rows.all (fun r => (rowSample r).isOk)

/-- `true` when every window of the list completes without raising. -/
def windowsClean (ws : List Window) : Bool := ws.all windowClean

/-- The samples kept from a list of fully-successful windows. -/
def keptSamples (ws : List Window) : List TaskSample :=
  ws.flatMap (fun w =>
    match w with
    | Except.error _ => []
    | Except.ok rows => rows.filterMap taskSampleOf)

/- ### Summaries (`get_summaries`, lines 226-254) -/

/-- One row of `configs/job_names_and_modules.csv` (columns as used by the
script: the merge key `job_name` and the three module columns). -/
structure ModuleRow where
  job_name : String
  module_name : String
  module_number : Int
  main_module_name : String
  deriving Repr, DecidableEq

/-- Line 236: `job_details_df[job_details_df['job_status'].isin(["SUCCEEDED"])]`. -/
def successRows (jobs : List JobRecord) : List JobRecord :=
  jobs.filter (fun r => decide (r.job_status ∈ ["SUCCEEDED"]))

/-- Duration in hours between two datetime (epoch-millisecond) columns:
`NaT` in either operand propagates. -/
def durHours (st sp : Option Int) : Option ℚ :=
  match st, sp with
  | some a, some b => some (((b - a : Int) : ℚ) / 3600000)
  | _, _ => none

/-- One row of `temp_df` after the left merge on line 240: the job columns,
the per-job duration, and the matched module columns (`none` models the NaN
columns of an unmatched left row). -/
structure TempRow where
  job_name : String
  started_at : Option Int
  stopped_at : Option Int
  avg_dur : Option ℚ
  mrow : Option ModuleRow
  deriving Repr, DecidableEq

/-- Lines 236-240: take the successful rows, compute the per-job duration in
hours, and left-merge the module mapping on `job_name` (a left row is
duplicated once per matching mapping row, and kept with NaN module columns
when nothing matches). -/
def tempRows (mapping : List ModuleRow) (jobs : List JobRecord) : List TempRow :=
  (successRows jobs).flatMap (fun r =>
    let dur := durHours r.started_at r.stopped_at
    match mapping.filter (fun m => m.job_name == r.job_name) with
    | [] => [{ job_name := r.job_name, started_at := r.started_at,
               stopped_at := r.stopped_at, avg_dur := dur, mrow := none }]
    | m :: ms => (m :: ms).map (fun mm =>
        { job_name := r.job_name, started_at := r.started_at,
          stopped_at := r.stopped_at, avg_dur := dur, mrow := some mm }))

/-- The groupby key of line 241. -/
def moduleKey (m : ModuleRow) : String × Int × String :=
  (m.module_name, m.module_number, m.main_module_name)

/-- Skipna minimum of a datetime column. -/
def optMinInt (l : List (Option Int)) : Option Int :=
  l.foldl (fun acc x =>
    match acc, x with
    | none, x => x
    | some a, none => some a
    | some a, some b => some (min a b)) none

/-- Skipna maximum of a datetime column. -/
def optMaxInt (l : List (Option Int)) : Option Int :=
  l.foldl (fun acc x =>
    match acc, x with
    | none, x => x
    | some a, none => some a
    | some a, some b => some (max a b)) none

/-- `np.average` over a column: NaN propagates (unlike the skipna mean). -/
def avgOpt (l : List (Option ℚ)) : Option ℚ :=
  if l.any (fun x => x.isNone) then none else some (meanOf (l.filterMap id))

/-- The distinct groupby triples of line 241, in first-occurrence order
(pandas drops rows whose group keys are NaN, i.e. unmatched left rows). -/
def groupTriples (ts : List TempRow) : List (String × Int × String) :=
  ((ts.filterMap (fun t => t.mrow)).map moduleKey).dedup

/-- The temp rows belonging to one groupby triple. -/
def rowsForKey (ts : List TempRow) (k : String × Int × String) : List TempRow :=
  ts.filter (fun t =>
    match t.mrow with
    | some m => decide (moduleKey m = k)
    | none => false)

/-- Line 242's `value_counts(['main_module_name','module_name','module_number'])`:
the distinct triples with their row counts.  (pandas orders the entries by
descending count; the embedding keeps first-occurrence order — only the
multiset matters downstream.) -/
def countTriples (ts : List TempRow) : List ((String × Int × String) × Nat) :=
  (groupTriples ts).map (fun k => (k, (rowsForKey ts k).length))

/-- One row of the submodule summary after the column selection of line 245. -/
structure SubRow where
  module_number_x : Int
  main_module_name_x : String
  module_name : String
  started_at : Option Int
  stopped_at : Option Int
  avg_duration_across_all_jobs : Option ℚ
  job_counts : Option Nat
  duration : Option ℚ
  deriving Repr, DecidableEq

/-- Lines 241-245 without the final sort: aggregate per module triple
(`np.min`/`np.max`/`np.average`), merge the counts back on `module_name`
alone (line 242 — so a summary row is duplicated once per count entry whose
`module_name` matches), and compute the aggregate duration in hours. -/
def subRowsUnsorted (mapping : List ModuleRow) (jobs : List JobRecord) : List SubRow :=
  let ts := tempRows mapping jobs
  (groupTriples ts).flatMap (fun k =>
    let grp := rowsForKey ts k
    let sMin := optMinInt (grp.map (fun t => t.started_at))
    let sMax := optMaxInt (grp.map (fun t => t.stopped_at))
    let avg := avgOpt (grp.map (fun t => t.avg_dur))
    let base : SubRow :=
      { module_number_x := k.2.1
        main_module_name_x := k.2.2
        module_name := k.1
        started_at := sMin
        stopped_at := sMax
        avg_duration_across_all_jobs := avg
        job_counts := none
        duration := durHours sMin sMax }
    match (countTriples ts).filter (fun c => c.1.1 == k.1) with
    | [] => [base]
    | c :: cs => (c :: cs).map (fun cc => { base with job_counts := some cc.2 }))

/-- Datetime comparison for the sort on line 245 (`NaT` sorts last). -/
def leOptInt : Option Int → Option Int → Bool
  | none, none => true
  | none, some _ => false
  | some _, none => true
  | some a, some b => decide (a ≤ b)

/-- Sort order of line 245: by `module_number_x`, then `started_at`. -/
def leSub (a b : SubRow) : Bool :=
  if a.module_number_x = b.module_number_x then leOptInt a.started_at b.started_at
  else decide (a.module_number_x < b.module_number_x)

/-- Ordered insertion (kept before the first element it is `le` to). -/
def insertOrd (le : α → α → Bool) (a : α) : List α → List α
  | [] => [a]
  | b :: l => if le a b then a :: b :: l else b :: insertOrd le a l

/-- Insertion sort (a deterministic stand-in for `sort_values`, whose
tie-breaking quicksort order pandas does not guarantee). -/
def insSort (le : α → α → Bool) : List α → List α
  | [] => []
  | x :: xs => insertOrd le x (insSort le xs)

/-- Lines 236-246: the submodule summary table as written to
`submodule_summary.csv`. -/
def submoduleSummary (mapping : List ModuleRow) (jobs : List JobRecord) : List SubRow :=
  insSort leSub (subRowsUnsorted mapping jobs)

/-- Two-digit zero-padded field of `strftime`. -/
def pad2 (n : Nat) : String :=
  if n < 10 then "0" ++ toString n else toString n

/-- Line 252: seconds → `to_datetime(..., unit='s')` → `strftime("%H:%M:%S")`
(the clock-of-day of the corresponding instant, i.e. modulo one day). -/
def formatHMS (q : ℚ) : String :=
  let s := (Int.emod (Rat.floor q) 86400).toNat
  pad2 (s / 3600) ++ ":" ++ pad2 (s % 3600 / 60) ++ ":" ++ pad2 (s % 60)

/-- Duration in seconds between two datetime (epoch-ms) values. -/
def durSecs (st sp : Option Int) : Option ℚ :=
  match st, sp with
  | some a, some b => some (((b - a : Int) : ℚ) / 1000)
  | _, _ => none

/-- One row of the high-level summary (lines 250-252). -/
structure HighRow where
  module_number_x : Int
  main_module_name_x : String
  started_at : Option Int
  stopped_at : Option Int
  job_counts : Nat
  duration : Option String
  deriving Repr, DecidableEq

/-- Lines 250-252: group the submodule summary by
`(module_number_x, main_module_name_x)`, take min start / max stop / summed
counts (skipna sums), and format the span as `%H:%M:%S`. -/
def highlevelSummary (sub : List SubRow) : List HighRow :=
  ((sub.map (fun r => (r.module_number_x, r.main_module_name_x))).dedup).map (fun k =>
    let grp := sub.filter (fun r =>
      decide ((r.module_number_x, r.main_module_name_x) = k))
    let sMin := optMinInt (grp.map (fun r => r.started_at))
    let sMax := optMaxInt (grp.map (fun r => r.stopped_at))
    { module_number_x := k.1
      main_module_name_x := k.2
      started_at := sMin
      stopped_at := sMax
      job_counts := (grp.filterMap (fun r => r.job_counts)).sum
      duration := (durSecs sMin sMax).map formatHMS })

/-- Lines 226-254, `get_summaries`: the pair of tables written to
`submodule_summary.csv` and `highlevel_summary.csv`, as a function of the
module mapping file and the job table. -/
def get_summaries (mapping : List ModuleRow) (jobs : List JobRecord) :
    List SubRow × List HighRow :=
  let sub := submoduleSummary mapping jobs
  (sub, highlevelSummary sub)

/- ### main (lines 257-299) -/

/-- What `main` wrote and how it ended: each CSV is `some contents` when its
write was reached, and `err` is the uncaught exception if one escaped. -/
structure MainTrace where
  task_resource_csv : Option (List TaskSample)
  job_details_csv : Option (List (JobRecord × Option TaskSample))
  submodule_csv : Option (List SubRow)
  highlevel_csv : Option (List HighRow)
  err : Option PyErr
  deriving Repr, DecidableEq

/-- The trace of a run that wrote nothing and raised nothing. -/
def emptyTrace : MainTrace :=
  { task_resource_csv := none, job_details_csv := none,
    submodule_csv := none, highlevel_csv := none, err := none }

/-- Line 270: `pd.merge(details, resources, on="task_id", how="left")` — each
job row is duplicated once per resource row sharing its `task_id`, or kept
with NaN resource columns when none matches. -/
def mergeOnTaskId (dfL : List JobRecord) (dfR : List TaskSample) :
    List (JobRecord × Option TaskSample) :=
  dfL.flatMap (fun r =>
    match dfR.filter (fun s => s.task_id == r.task_id) with
    | [] => [(r, none)]
    | m :: ms => (m :: ms).map (fun s => (r, some s)))

/-- Lines 275-278: write the job-details CSV and compute the summaries from
`output_df` (of which `get_summaries` reads only the job columns). -/
def finishTrace (rcsv : Option (List TaskSample))
    (out : List (JobRecord × Option TaskSample))
    (mapping : List ModuleRow) : MainTrace :=
  let s := get_summaries mapping (out.map (fun p => p.1))
  { task_resource_csv := rcsv
    job_details_csv := some out
    submodule_csv := some s.1
    highlevel_csv := some s.2
    err := none }

/-- Lines 257-299, `main`: list the job ids, stop silently when there are
none, fetch the details, and then the branching of lines 265-275: with a log
group and a nonempty details table the resource usage is queried, and
`output_df` is assigned only inside the `if len(...) > 0` merge branch — or
in the `else` branch when the log-group condition fails.  If the resource
table is empty, line 275's `output_df.to_csv` hits an unassigned local. -/
def main (cutoff : Int) (svc : String → List ListJobsPage)
    (fetch : String → Except Unit (List JobDetail))
    (logGroup : Option String) (windows : List Window)
    (mapping : List ModuleRow) : MainTrace :=
  match get_batch_job_id_list cutoff svc with
  | Except.error e => { emptyTrace with err := some e }
  | Except.ok ids =>
    if ids.isEmpty then emptyTrace
    else
      match get_job_details fetch ids with
      | Except.error e => { emptyTrace with err := some e }
      | Except.ok df =>
        if 0 < df.length ∧ logGroup.isSome then
          let res := get_resource_usage windows
          let rcsv := resource_usage_csv windows
          if 0 < res.length then
            finishTrace rcsv (mergeOnTaskId df res) mapping
          else
            { emptyTrace with task_resource_csv := rcsv,
                              err := some PyErr.unboundLocal }
        else
          finishTrace none (df.map (fun r => (r, none))) mapping

/- ### Lemmas about the listing loop -/

/-- `do`-bind on a successful `Except` result computes. -/
lemma ok_bind (a : α) (f : α → Except ε β) :
    (Except.ok a : Except ε α) >>= f = f a := rfl

/-- When the `nextToken` key is present, the textual response contains the
substring `'nextToken'`. -/
lemma hasSub_nextToken_of_some (p : ListJobsPage) (t : String)
    (h : p.nextToken = some t) : hasSub "nextToken" (pyStrPage p) = true := by
  have h1 : "nextToken".toList <:+: tokChunkL := by decide
  have h2 : tokChunkL <:+: pyStrPage p := by
    refine ⟨"\x7b\x27jobSummaryList\x27: [".toList
        ++ joinComma (p.jobSummaryList.map pyStrJobSummary) ++ "]".toList,
      t.toList ++ "\x27".toList ++ "\x7d".toList, ?_⟩
    simp [pyStrPage, h, pyStrTok, List.append_assoc]
  unfold hasSub
  exact decide_eq_true (h1.trans h2)

/-- The `while` loop is insensitive to the token's value and stops at once on
an exhausted page list. -/
lemma whileLoop_nil (cutoff : Int) (tok : Option String) :
    whileLoop cutoff tok [] = ([], 0) := by
  cases tok <;> rfl

/-- Under the chain condition, the `while` loop started with some token
visits every page once and collects all their filtered ids. -/
lemma whileLoop_chain (cutoff : Int) :
    ∀ (pages : List ListJobsPage) (t : String), chainedPages pages = true →
      whileLoop cutoff (some t) pages =
        (pages.flatMap (filterPage cutoff), pages.length) := by
  intro pages
  induction pages with
  | nil => intro t h; simp [chainedPages] at h
  | cons p rest ih =>
    intro t h
    have hstep : whileLoop cutoff (some t) (p :: rest) =
        (filterPage cutoff p ++ (whileLoop cutoff p.nextToken rest).1,
         (whileLoop cutoff p.nextToken rest).2 + 1) := rfl
    cases rest with
    | nil =>
      rw [hstep, whileLoop_nil]
      simp
    | cons q rs =>
      simp only [chainedPages, Bool.and_eq_true] at h
      obtain ⟨htok, hrest⟩ := h
      obtain ⟨t2, ht2⟩ := Option.isSome_iff_exists.mp htok
      rw [hstep, ht2, ih t2 hrest]
      simp

/-- Under the chain condition and with no spurious `'nextToken'` text on a
token-less first page, the per-status listing succeeds, makes exactly one
`list_jobs` call per page, and returns the filtered ids of every page. -/
lemma getStatusJobs_chain (cutoff : Int) (pages : List ListJobsPage)
    (hc : chainedPages pages = true) (hf : cleanFirstPage pages = true) :
    getStatusJobs cutoff pages =
      Except.ok (pages.flatMap (filterPage cutoff), pages.length) := by
  cases pages with
  | nil => simp [chainedPages] at hc
  | cons p rest =>
    cases htok : p.nextToken with
    | some t =>
      have hsub := hasSub_nextToken_of_some p t htok
      cases rest with
      | nil => simp [chainedPages, htok] at hc
      | cons q rs =>
        simp only [chainedPages, Bool.and_eq_true] at hc
        simp only [getStatusJobs, hsub, if_true, htok,
          whileLoop_chain cutoff (q :: rs) t hc.2]
        simp [Nat.add_comm]
    | none =>
      cases rest with
      | cons q rs => simp [chainedPages, htok] at hc
      | nil =>
        have hsub : hasSub "nextToken" (pyStrPage p) = false := by
          simp only [cleanFirstPage, htok, Option.isSome_none,
            Bool.false_eq_true, if_false, Bool.not_eq_true'] at hf
          exact hf
        simp [getStatusJobs, hsub]

/-- Distributing the per-page filter over the concatenated summaries. -/
lemma flatMap_filterPage (cutoff : Int) (pages : List ListJobsPage) :
    pages.flatMap (filterPage cutoff) =
      ((pages.flatMap (fun p => p.jobSummaryList)).filter
        (fun x => cutoff < x.createdAt)).map (fun x => x.jobId) := by
  induction pages with
  | nil => simp
  | cons p rest ih => simp [filterPage, ih]

/- ### Claim C1 -/

/-- A queue snapshot whose only job (id `j0`, `SUCCEEDED`) was created at
epoch-millisecond 1000 — exactly the cutoff used below. -/
def svcC1 : String → List ListJobsPage := fun st =>
  if st = "SUCCEEDED" then [⟨[⟨"j0", 1000⟩], none⟩] else [⟨[], none⟩]

/-- Claim C1, counterexample: the claim says a job created exactly at the
cutoff instant is included, but line 79 compares with strict `>`, so with
cutoff 1000 the job `j0` created at 1000 is excluded — the returned id list
is empty. -/
theorem c1_at_cutoff_excluded_counterexample :
    svcC1 "SUCCEEDED" = [⟨[⟨"j0", 1000⟩], none⟩] ∧
      get_batch_job_id_list 1000 svcC1 = Except.ok [] := by
  exact ⟨rfl, by decide⟩

/-- Claim C1 (amended): for every queue snapshot (with well-chained pages
whose token-less first page has no spurious `'nextToken'` text) and cutoff,
`get_batch_job_id_list` retains exactly the jobs whose creation time is
STRICTLY after the cutoff: a job created exactly at the cutoff instant is
excluded, as is every earlier one. -/
theorem c1_strictly_after_cutoff_amended (cutoff : Int)
    (svc : String → List ListJobsPage)
    (hc : ∀ st ∈ status_needed, chainedPages (svc st) = true)
    (hf : ∀ st ∈ status_needed, cleanFirstPage (svc st) = true) :
    get_batch_job_id_list cutoff svc =
      Except.ok (status_needed.flatMap (fun st =>
        (((svc st).flatMap (fun p => p.jobSummaryList)).filter
          (fun x => cutoff < x.createdAt)).map (fun x => x.jobId))) := by
  have h1 := getStatusJobs_chain cutoff (svc "SUCCEEDED")
    (hc _ (by simp [status_needed])) (hf _ (by simp [status_needed]))
  have h2 := getStatusJobs_chain cutoff (svc "FAILED")
    (hc _ (by simp [status_needed])) (hf _ (by simp [status_needed]))
  have h3 := getStatusJobs_chain cutoff (svc "RUNNING")
    (hc _ (by simp [status_needed])) (hf _ (by simp [status_needed]))
  simp [get_batch_job_id_list, status_needed, h1, h2, h3, flatMap_filterPage,
    ok_bind, List.append_assoc]

/-- A two-page `SUCCEEDED` chain for exercising the amended C1 statement. -/
def svcW1 : String → List ListJobsPage := fun st =>
  if st = "SUCCEEDED" then
    [⟨[⟨"a", 5⟩, ⟨"b", 1⟩], some "tok"⟩, ⟨[⟨"c", 9⟩], none⟩]
  else [⟨[], none⟩]

/-- Witness for the amended C1: with cutoff 3, only the jobs created after 3
(`a` at 5, `c` at 9) are returned; `b` at 1 is dropped. -/
theorem c1_strictly_after_cutoff_amended_witness :
    get_batch_job_id_list 3 svcW1 = Except.ok ["a", "c"] :=
  (c1_strictly_after_cutoff_amended 3 svcW1 (by decide) (by decide)).trans (by decide)

/- ### Claim C2 -/

/-- A service returning, for `SUCCEEDED`, a single page with no continuation
token whose only job id contains the text `nextToken`. -/
def svcC2 : String → List ListJobsPage := fun st =>
  if st = "SUCCEEDED" then [⟨[⟨"job-nextToken-1", 99⟩], none⟩] else [⟨[], none⟩]

/-- Claim C2, counterexample: the page sequence satisfies the claim's
hypothesis (every page but the last carries a token — here a single
token-less page), yet the listing does not return the page's job ids: the
line-82 test `'nextToken' in str(response)` is true because the job id
contains that text, so `response['nextToken']` raises `KeyError` and the
function aborts. -/
theorem c2_spurious_token_text_counterexample :
    chainedPages (svcC2 "SUCCEEDED") = true ∧
      get_batch_job_id_list 0 svcC2 = Except.error (PyErr.keyError "nextToken") := by
  exact ⟨by decide, by decide⟩

/-- Claim C2 (amended): for every finite page sequence per status in which
every page except the last carries a continuation token, PROVIDED a
token-less first page's textual form does not contain `'nextToken'`, the
per-status loop terminates after exactly one `list_jobs` call per page and
returns the (cutoff-filtered) ids of every page, accumulated per status and
concatenated over `SUCCEEDED`, `FAILED`, `RUNNING`. -/
theorem c2_pagination_terminates_amended (cutoff : Int)
    (svc : String → List ListJobsPage)
    (hc : ∀ st ∈ status_needed, chainedPages (svc st) = true)
    (hf : ∀ st ∈ status_needed, cleanFirstPage (svc st) = true) :
    (∀ st ∈ status_needed, getStatusJobs cutoff (svc st) =
      Except.ok ((svc st).flatMap (filterPage cutoff), (svc st).length)) ∧
    get_batch_job_id_list cutoff svc =
      Except.ok (status_needed.flatMap (fun st =>
        (svc st).flatMap (filterPage cutoff))) := by
  refine ⟨fun st hst => getStatusJobs_chain cutoff (svc st) (hc st hst) (hf st hst), ?_⟩
  have h1 := getStatusJobs_chain cutoff (svc "SUCCEEDED")
    (hc _ (by simp [status_needed])) (hf _ (by simp [status_needed]))
  have h2 := getStatusJobs_chain cutoff (svc "FAILED")
    (hc _ (by simp [status_needed])) (hf _ (by simp [status_needed]))
  have h3 := getStatusJobs_chain cutoff (svc "RUNNING")
    (hc _ (by simp [status_needed])) (hf _ (by simp [status_needed]))
  simp [get_batch_job_id_list, status_needed, h1, h2, h3, ok_bind, List.append_assoc]

/-- A three-page chain: two token-carrying pages, then a final one. -/
def svcW2 : String → List ListJobsPage := fun st =>
  if st = "FAILED" then
    [⟨[⟨"f1", 10⟩], some "t1"⟩, ⟨[⟨"f2", 20⟩], some "t2"⟩, ⟨[⟨"f3", 30⟩], none⟩]
  else [⟨[], none⟩]

/-- Witness for the amended C2: three pages mean exactly three `list_jobs`
calls for `FAILED`, and all three ids are returned. -/
theorem c2_pagination_terminates_amended_witness :
    getStatusJobs 0 (svcW2 "FAILED") = Except.ok (["f1", "f2", "f3"], 3) ∧
      get_batch_job_id_list 0 svcW2 = Except.ok ["f1", "f2", "f3"] := by
  have h := c2_pagination_terminates_amended 0 svcW2 (by decide) (by decide)
  exact ⟨(h.1 "FAILED" (by decide)).trans (by decide), h.2.trans (by decide)⟩

/- ### Claim C3 -/

/-- When the `vcpus` key is present, the textual container contains the
substring `'vcpus'`. -/
lemma hasSub_vcpus_of_some (c : Container) (v : Int) (h : c.vcpus = some v) :
    hasSub "vcpus" (pyStrContainer c) = true := by
  have h1 : "vcpus".toList <:+: vcpusChunkL := by decide
  have h2 : vcpusChunkL <:+: pyStrContainer c := by
    refine ⟨"\x7b\x27image\x27: \x27".toList ++ c.image.toList ++ "\x27".toList,
      (toString v).toList
        ++ pyStrOptInt memoryChunkL c.memory
        ++ ", \x27resourceRequirements\x27: [".toList
        ++ joinComma (c.resourceRequirements.map pyStrRR)
        ++ "]".toList
        ++ pyStrOptStr "containerInstanceArn" c.containerInstanceArn
        ++ pyStrOptStr "taskArn" c.taskArn
        ++ "\x7d".toList, ?_⟩
    simp [pyStrContainer, h, pyStrOptInt, List.append_assoc]
  unfold hasSub
  exact decide_eq_true (h1.trans h2)

/-- When the `memory` key is present, the textual container contains the
substring `'memory'`. -/
lemma hasSub_memory_of_some (c : Container) (v : Int) (h : c.memory = some v) :
    hasSub "memory" (pyStrContainer c) = true := by
  have h1 : "memory".toList <:+: memoryChunkL := by decide
  have h2 : memoryChunkL <:+: pyStrContainer c := by
    refine ⟨"\x7b\x27image\x27: \x27".toList ++ c.image.toList ++ "\x27".toList
        ++ pyStrOptInt vcpusChunkL c.vcpus,
      (toString v).toList
        ++ ", \x27resourceRequirements\x27: [".toList
        ++ joinComma (c.resourceRequirements.map pyStrRR)
        ++ "]".toList
        ++ pyStrOptStr "containerInstanceArn" c.containerInstanceArn
        ++ pyStrOptStr "taskArn" c.taskArn
        ++ "\x7d".toList, ?_⟩
    simp [pyStrContainer, h, pyStrOptInt, List.append_assoc]
  unfold hasSub
  exact decide_eq_true (h1.trans h2)

/-- A container with no direct `vcpus`/`memory` fields whose image name
contains the text `vcpus`, together with a well-formed positional
`resourceRequirements` list. -/
def containerC3 : Container :=
  ⟨"vcpus-test-image", none, none, [⟨"4", "VCPU"⟩, ⟨"32768", "MEMORY"⟩], none, none⟩

/-- Claim C3, counterexample: the claim says that when the container carries
no direct fields, index 0 of `resourceRequirements` (here the value `"4"`) is
used as vCPU.  But line 143 tests `'vcpus' in str(container)`: for this
container the test is true because of the image name, so the code performs
the direct `container['vcpus']` lookup and raises `KeyError` instead of
falling back to the positional value. -/
theorem c3_spurious_substring_counterexample :
    containerC3.vcpus = none ∧
      (containerC3.resourceRequirements[0]?).map (fun r => r.value) = some "4" ∧
      get_vcpus containerC3 = Except.error (PyErr.keyError "vcpus") := by
  exact ⟨rfl, rfl, by decide⟩

/-- Claim C3 (amended): the direct `vcpus`/`memory` fields are used whenever
they are present; the positional fallback (index 0 for vCPU, index 1 for
memory) applies only when the textual form of the container does not contain
the substring — which is implied by, but not equivalent to, the key being
absent. -/
theorem c3_resource_extraction_amended (c : Container) :
    (∀ v, c.vcpus = some v → get_vcpus c = Except.ok (JVal.i v)) ∧
    (hasSub "vcpus" (pyStrContainer c) = false →
      ∀ r, c.resourceRequirements[0]? = some r →
        get_vcpus c = Except.ok (JVal.s r.value)) ∧
    (∀ v, c.memory = some v → get_memory c = Except.ok (JVal.i v)) ∧
    (hasSub "memory" (pyStrContainer c) = false →
      ∀ r, c.resourceRequirements[1]? = some r →
        get_memory c = Except.ok (JVal.s r.value)) := by
  refine ⟨fun v hv => ?_, fun hs r hr => ?_, fun v hv => ?_, fun hs r hr => ?_⟩
  · rw [get_vcpus, hasSub_vcpus_of_some c v hv]
    simp [hv]
  · rw [get_vcpus, hs]
    simp [hr]
  · rw [get_memory, hasSub_memory_of_some c v hv]
    simp [hv]
  · rw [get_memory, hs]
    simp [hr]

/-- A container carrying the direct integer fields. -/
def containerDirect : Container := ⟨"img", some 4, some 8, [], none, none⟩

/-- A container carrying only the positional requirements list. -/
def containerPositional : Container :=
  ⟨"img", none, none, [⟨"2", "VCPU"⟩, ⟨"1024", "MEMORY"⟩], none, none⟩

/-- Witness for the amended C3, covering both schema variants. -/
theorem c3_resource_extraction_amended_witness :
    get_vcpus containerDirect = Except.ok (JVal.i 4) ∧
      get_memory containerDirect = Except.ok (JVal.i 8) ∧
      get_vcpus containerPositional = Except.ok (JVal.s "2") ∧
      get_memory containerPositional = Except.ok (JVal.s "1024") := by
  exact ⟨(c3_resource_extraction_amended containerDirect).1 4 rfl,
    (c3_resource_extraction_amended containerDirect).2.2.1 8 rfl,
    (c3_resource_extraction_amended containerPositional).2.1 (by decide) ⟨"2", "VCPU"⟩ rfl,
    (c3_resource_extraction_amended containerPositional).2.2.2 (by decide) ⟨"1024", "MEMORY"⟩ rfl⟩

/- ### Claim C4 -/

/-- A job detail that parses successfully. -/
def jobDetailOk : JobDetail :=
  ⟨"good-job", "SUCCEEDED", some 10, some 20, ⟨"img", some 4, some 8, [], none, none⟩, []⟩

/-- A `describe_jobs` stub that succeeds only for the id `"ok"`. -/
def fetchMix : String → Except Unit (List JobDetail) := fun jid =>
  if jid = "ok" then Except.ok [jobDetailOk] else Except.error ()

/-- Claim C4, evaluation at the failing input: when `describe_jobs` raises on
the very first job id, the bare `except:` handler's own warning line
interpolates the local `response`, which has never been assigned, so the
handler raises `UnboundLocalError` — the exception escapes the per-job loop,
no warning is logged and no remaining job is processed, contradicting the
claim.  (Second conjunct: once a previous `describe_jobs` call has bound
`response`, a later per-job failure IS swallowed and the loop continues, so
the suppression the claim describes only works from the second fetched job
onward.) -/
theorem c4_first_job_failure_escapes :
    get_job_details (fun _ => Except.error ()) ["job-1"] =
        Except.error PyErr.unboundLocal ∧
      get_job_details fetchMix ["ok", "job-1"] =
        Except.ok [⟨"ok", "good-job", "SUCCEEDED", some 10, some 20, "img",
          JVal.i 4, JVal.i 8, 0, 0, "", "", none⟩] := by
  exact ⟨by decide, by decide⟩

/- ### Claim C10 -/

/-- When every job's fetch succeeds but its parse raises (so the handler sees
a bound `response` and swallows), the loop finishes with the accumulator
unchanged. -/
lemma processJobs_all_swallowed (fetch : String → Except Unit (List JobDetail)) :
    ∀ (ids : List String) (resp : Option (List JobDetail)) (acc : List JobRecord),
      (∀ jid ∈ ids, ∃ r, fetch jid = Except.ok r ∧
        ∀ rec, parseJob jid r ≠ Except.ok rec) →
      processJobs fetch ids resp acc = Except.ok acc := by
  intro ids
  induction ids with
  | nil => intro resp acc _; rfl
  | cons jid rest ih =>
    intro resp acc hall
    obtain ⟨r, hf, hp⟩ := hall jid (by simp)
    have hrest : ∀ j ∈ rest, ∃ r, fetch j = Except.ok r ∧
        ∀ rec, parseJob j r ≠ Except.ok rec :=
      fun j hj => hall j (by simp [hj])
    show processJobs fetch (jid :: rest) resp acc = Except.ok acc
    simp only [processJobs, hf]
    cases hpj : parseJob jid r with
    | ok rec => exact absurd hpj (hp rec)
    | error e => exact ih (some r) acc hrest

/-- Claim C10: on a non-empty id list where every job's detail processing
fails and is swallowed (the fetch returns a response the parse then rejects),
`get_job_details` does not return an empty table — the record list is empty,
so the dataframe has no columns and line 155's `df['started_at']` raises
`KeyError`. -/
theorem c10_all_failures_raise_keyerror
    (fetch : String → Except Unit (List JobDetail)) (ids : List String)
    (_hne : ids ≠ [])
    (hall : ∀ jid ∈ ids, ∃ r, fetch jid = Except.ok r ∧
      ∀ rec, parseJob jid r ≠ Except.ok rec) :
    get_job_details fetch ids = Except.error (PyErr.keyError "started_at") := by
  rw [get_job_details, processJobs_all_swallowed fetch ids none [] hall]
  rfl

/-- Witness for C10: a service whose every `describe_jobs` answer has an
empty `jobs` list, so `response['jobs'][0]` raises `IndexError` for each job
and each job is swallowed; the empty record list then trips the column
conversion. -/
theorem c10_all_failures_raise_keyerror_witness :
    get_job_details (fun _ => Except.ok []) ["a", "b"] =
      Except.error (PyErr.keyError "started_at") := by
  exact c10_all_failures_raise_keyerror (fun _ => Except.ok []) ["a", "b"]
    (by decide)
    (fun jid _ => ⟨[], rfl, fun rec h => Except.noConfusion h⟩)

/- ### Claim C5 -/

/-- A window whose every record parses yields exactly its `'Task'`-typed
samples and no exception. -/
lemma processRows_clean (rows : List RawRecord)
    (h : rows.all (fun r => (rowSample r).isOk) = true) :
    processRows rows = (rows.filterMap taskSampleOf, none) := by
  induction rows with
  | nil => rfl
  | cons r rs ih =>
    simp only [List.all_cons, Bool.and_eq_true] at h
    have hrs := ih h.2
    cases hr : rowSample r with
    | error e => rw [hr] at h; exact absurd h.1 (by simp [Except.isOk, Except.toBool])
    | ok s =>
      cases s with
      | none =>
        have ht : taskSampleOf r = none := by rw [taskSampleOf, hr]
        rw [processRows, hr, hrs]
        simp [List.filterMap_cons, ht]
      | some smp =>
        have ht : taskSampleOf r = some smp := by rw [taskSampleOf, hr]
        rw [processRows, hr, hrs]
        simp [List.filterMap_cons, ht]

/-- Running a clean prefix of windows just accumulates its kept samples. -/
lemma runWindows_clean_append (pre : List Window) (h : windowsClean pre = true) :
    ∀ (rest : List Window) (acc : List TaskSample),
      runWindows (pre ++ rest) acc = runWindows rest (acc ++ keptSamples pre) := by
  induction pre with
  | nil => intro rest acc; simp [keptSamples]
  | cons w ws ih =>
    intro rest acc
    simp only [windowsClean, List.all_cons, Bool.and_eq_true] at h
    cases w with
    | error e => exact absurd h.1 (by simp [windowClean])
    | ok rows =>
      have hclean : windowsClean ws = true := h.2
      have hrows := processRows_clean rows h.1
      show runWindows (Except.ok rows :: (ws ++ rest)) acc = _
      rw [runWindows, hrows]
      rw [ih hclean rest (acc ++ rows.filterMap taskSampleOf)]
      simp [keptSamples, List.append_assoc]

/-- Claim C5: when a query window raises (after `pre` clean windows), the
loop stops — the remaining `post` windows are never attempted (they do not
appear in the result) — the exception is caught by the outer `except` rather
than propagating, and the function still returns (and, when nonempty,
group-averages and writes) exactly the records accumulated from the windows
completed before the failure. -/
theorem c5_partial_results_on_window_failure (pre post : List Window)
    (hpre : windowsClean pre = true) :
    runWindows (pre ++ Except.error () :: post) [] =
        (keptSamples pre, some PyErr.serviceError) ∧
      get_resource_usage (pre ++ Except.error () :: post) =
        (if 0 < (keptSamples pre).length then groupbyMean (keptSamples pre)
         else keptSamples pre) := by
  have h1 : runWindows (pre ++ Except.error () :: post) [] =
      (keptSamples pre, some PyErr.serviceError) := by
    rw [runWindows_clean_append pre hpre (Except.error () :: post) []]
    rfl
  refine ⟨h1, ?_⟩
  rw [get_resource_usage, h1]

/-- A clean window carrying one `'Task'` record. -/
def preW5 : List Window :=
  [Except.ok [some ⟨"Task", some "t1", some "c1", some 1, some 2, some 3, some 4⟩]]

/-- Windows that would have run after the failure. -/
def postW5 : List Window := [Except.ok [], Except.error ()]

/-- Witness for C5: a concrete clean prefix followed by a failing window. -/
theorem c5_partial_results_on_window_failure_witness :
    runWindows (preW5 ++ Except.error () :: postW5) [] =
      (keptSamples preW5, some PyErr.serviceError) :=
  (c5_partial_results_on_window_failure preW5 postW5 (by decide)).1

/- ### Claim C6 -/

/-- Exit of the polling loop at the first non-`Running` response, counted
from an arbitrary starting index. -/
lemma pollLoopAux_exit (polls : Nat → QueryResponse) :
    ∀ (n fuel i : Nat), (∀ m, m < n → (polls (i + m)).status = "Running") →
      (polls (i + n)).status ≠ "Running" → n < fuel →
      pollLoopAux polls i fuel = some (i + n + 1, polls (i + n)) := by
  intro n
  induction n with
  | zero =>
    intro fuel i _ hstop hfuel
    cases fuel with
    | zero => omega
    | succ f =>
      rw [pollLoopAux, if_neg (by simpa using hstop)]
      simp
  | succ k ih =>
    intro fuel i hrun hstop hfuel
    cases fuel with
    | zero => omega
    | succ f =>
      have h0 : (polls i).status = "Running" := by simpa using hrun 0 (by omega)
      rw [pollLoopAux, if_pos h0]
      have hrun2 : ∀ m, m < k → (polls (i + 1 + m)).status = "Running" := by
        intro m hm
        have := hrun (m + 1) (by omega)
        rwa [show i + (m + 1) = i + 1 + m by omega] at this
      have := ih f (i + 1) hrun2
        (by rwa [show i + 1 + k = i + (k + 1) by omega]) (by omega)
      rwa [show i + 1 + k = i + (k + 1) by omega] at this

/-- With an everlasting `Running` status, no amount of fuel exits the loop. -/
lemma pollLoopAux_forever (polls : Nat → QueryResponse)
    (hall : ∀ n, (polls n).status = "Running") :
    ∀ (fuel i : Nat), pollLoopAux polls i fuel = none := by
  intro fuel
  induction fuel with
  | zero => intro i; rfl
  | succ f ih =>
    intro i
    rw [pollLoopAux, if_pos (hall i)]
    exact ih (i + 1)

/-- Claim C6: the completion loop sleeps one second per `get_query_results`
call and exits exactly at the first response whose status is no longer
`Running` — after `n + 1` polls (hence `n + 1` seconds) when response `n` is
the first non-`Running` one — and when the service reports `Running` forever
the loop runs past any bound: there is no timeout. -/
theorem c6_poll_until_not_running (polls : Nat → QueryResponse) :
    (∀ n fuel, (∀ m, m < n → (polls m).status = "Running") →
      (polls n).status ≠ "Running" → n < fuel →
      pollLoop polls fuel = some (n + 1, polls n)) ∧
    ((∀ n, (polls n).status = "Running") →
      ∀ fuel, pollLoop polls fuel = none) := by
  constructor
  · intro n fuel hrun hstop hfuel
    have := pollLoopAux_exit polls n fuel 0 (by simpa using hrun) (by simpa using hstop) hfuel
    simpa [pollLoop] using this
  · intro hall fuel
    exact pollLoopAux_forever polls hall fuel 0

/-- A query that is `Running` for two polls and then completes. -/
def pollsW6 : Nat → QueryResponse := fun i =>
  if i < 2 then ⟨"Running"⟩ else ⟨"Complete"⟩

/-- A query that never leaves `Running`. -/
def pollsR6 : Nat → QueryResponse := fun _ => ⟨"Running"⟩

/-- Witness for C6: the finite case exits after 3 polls with the `Complete`
response; the everlasting-`Running` case exhausts any fuel. -/
theorem c6_poll_until_not_running_witness :
    pollLoop pollsW6 10 = some (3, ⟨"Complete"⟩) ∧ pollLoop pollsR6 7 = none := by
  constructor
  · exact ((c6_poll_until_not_running pollsW6).1 2 10 (by decide) (by decide)
      (by decide)).trans (by decide)
  · exact (c6_poll_until_not_running pollsR6).2 (fun n => rfl) 7

/- ### Claim C7 -/

/-- Filtering a mapped list filters the sources. -/
lemma filter_of_map (f : α → β) (p : β → Bool) :
    ∀ l : List α, (l.map f).filter p = (l.filter (fun a => p (f a))).map f := by
  intro l
  induction l with
  | nil => rfl
  | cons a l ih =>
    by_cases h : p (f a) = true
    · simp [List.filter_cons, h, ih]
    · simp [List.filter_cons, h, ih]

/-- Filtering for an absent element yields nothing. -/
lemma filter_eq_nil_of_not_mem [DecidableEq α] :
    ∀ (l : List α) (a : α), a ∉ l → l.filter (fun x => decide (x = a)) = [] := by
  intro l
  induction l with
  | nil => intro a _; rfl
  | cons b bs ih =>
    intro a ha
    have hne : ¬(b = a) := fun h => ha (by simp [h])
    have hbs : a ∉ bs := fun h => ha (by simp [h])
    simp [List.filter_cons, hne, ih a hbs]

/-- In a duplicate-free list, filtering for a present element yields exactly
that element. -/
lemma nodup_filter_singleton [DecidableEq α] :
    ∀ (l : List α), l.Nodup → ∀ a ∈ l, l.filter (fun x => decide (x = a)) = [a] := by
  intro l
  induction l with
  | nil => intro _ a ha; simp at ha
  | cons b bs ih =>
    intro hnd a ha
    rw [List.nodup_cons] at hnd
    rcases List.mem_cons.mp ha with h | h
    · subst h
      simp [List.filter_cons, filter_eq_nil_of_not_mem bs a hnd.1]
    · have hne : ¬(b = a) := fun hba => hnd.1 (hba ▸ h)
      simp [List.filter_cons, hne, ih hnd.2 a h]

/-- The key of an averaged row is its groupby key. -/
lemma sampleKey_groupRow (rows : List TaskSample) (k : String × String) :
    sampleKey (groupRow rows k) = k := by
  simp [sampleKey, groupRow]

/-- In the averaged table, the rows keyed by a present key `p` are exactly
the single averaged row of `p`'s group. -/
lemma groupbyMean_filter_key (rows : List TaskSample) (p : String × String)
    (hp : p ∈ rows.map sampleKey) :
    (groupbyMean rows).filter (fun r => decide (sampleKey r = p)) =
      [groupRow rows p] := by
  rw [groupbyMean, filter_of_map]
  have hcongr : ((rows.map sampleKey).dedup).filter
      (fun k => decide (sampleKey (groupRow rows k) = p)) =
      ((rows.map sampleKey).dedup).filter (fun k => decide (k = p)) :=
    List.filter_congr (fun k _ => by rw [sampleKey_groupRow])
  rw [hcongr, nodup_filter_singleton _ (List.nodup_dedup _) p (List.mem_dedup.mpr hp)]
  rfl

/-- Claim C7: over fully-successful windows, (i) the accumulated records are
exactly the per-window `'Task'`-typed extractions; (ii) a non-`'Task'` record
is skipped, and every kept sample comes from a `'Task'` record; (iii) in the
returned table each (task, container-instance) key present among the kept
records appears in exactly one row, whose four metric columns are the
arithmetic means of those columns over the kept records sharing the key. -/
theorem c7_task_only_group_means (windows : List Window)
    (hclean : windowsClean windows = true) :
    (runWindows windows []).1 = keptSamples windows ∧
    (∀ v : LogValue, v.typ ≠ "Task" → rowSample (some v) = Except.ok none) ∧
    (∀ (v : LogValue) (s : TaskSample),
      rowSample (some v) = Except.ok (some s) → v.typ = "Task") ∧
    (∀ p ∈ (keptSamples windows).map sampleKey,
      (get_resource_usage windows).filter (fun r => decide (sampleKey r = p)) =
        [{ task_id := p.1
           container_instance_id := p.2
           cpu_used := meanOf (((keptSamples windows).filter
             (fun r => sampleKey r = p)).map (fun r => r.cpu_used))
           cpu_passed := meanOf (((keptSamples windows).filter
             (fun r => sampleKey r = p)).map (fun r => r.cpu_passed))
           memory_used := meanOf (((keptSamples windows).filter
             (fun r => sampleKey r = p)).map (fun r => r.memory_used))
           memory_passed := meanOf (((keptSamples windows).filter
             (fun r => sampleKey r = p)).map (fun r => r.memory_passed)) }]) := by
  have hacc : (runWindows windows []).1 = keptSamples windows := by
    have h0 : runWindows windows [] = (keptSamples windows, none) := by
      have := runWindows_clean_append windows hclean [] []
      simpa [runWindows] using this
    rw [h0]
  refine ⟨hacc, fun v hv => by simp [rowSample, hv], fun v s h => ?_, fun p hp => ?_⟩
  · by_contra hne
    rw [rowSample, if_neg hne] at h
    simp at h
  · have hne : keptSamples windows ≠ [] := by
      intro h0
      rw [h0] at hp
      simp at hp
    have hpos : 0 < (keptSamples windows).length := List.length_pos.mpr hne
    have husage : get_resource_usage windows = groupbyMean (keptSamples windows) := by
      rw [get_resource_usage, hacc, if_pos hpos]
    rw [husage, groupbyMean_filter_key (keptSamples windows) p hp]
    rfl

/-- A single clean window: two `'Task'` records sharing a key, one record of
another type. -/
def winW7 : List Window :=
  [Except.ok [
    some ⟨"Task", some "t1", some "c1", some 1, some 2, some 3, some 4⟩,
    some ⟨"Container", none, none, none, none, none, none⟩,
    some ⟨"Task", some "t1", some "c1", some 3, some 2, some 5, some 4⟩]]

/-- Witness for C7 at a concrete window set: clean windows, the accumulation
identity, the skipping of the non-`'Task'` record, the `'Task'` origin of a
kept sample, and the single averaged row for the key `("t1","c1")`. -/
theorem c7_task_only_group_means_witness :
    (runWindows winW7 []).1 = keptSamples winW7 ∧
      rowSample (some ⟨"Container", none, none, none, none, none, none⟩) =
        Except.ok none ∧
      (⟨"Task", some "t1", some "c1", some 1, some 2, some 3, some 4⟩ : LogValue).typ
        = "Task" ∧
      (get_resource_usage winW7).filter
          (fun r => decide (sampleKey r = ("t1", "c1"))) =
        [{ task_id := "t1"
           container_instance_id := "c1"
           cpu_used := meanOf (((keptSamples winW7).filter
             (fun r => sampleKey r = ("t1", "c1"))).map (fun r => r.cpu_used))
           cpu_passed := meanOf (((keptSamples winW7).filter
             (fun r => sampleKey r = ("t1", "c1"))).map (fun r => r.cpu_passed))
           memory_used := meanOf (((keptSamples winW7).filter
             (fun r => sampleKey r = ("t1", "c1"))).map (fun r => r.memory_used))
           memory_passed := meanOf (((keptSamples winW7).filter
             (fun r => sampleKey r = ("t1", "c1"))).map (fun r => r.memory_passed)) }] := by
  have h := c7_task_only_group_means winW7 (by decide)
  exact ⟨h.1, h.2.1 _ (by decide),
    h.2.2.1 ⟨"Task", some "t1", some "c1", some 1, some 2, some 3, some 4⟩
      ⟨"t1", "c1", 1, 2, 3, 4⟩ rfl,
    h.2.2.2 ("t1", "c1") (by decide)⟩

/- ### Claim C8 -/

/-- `isin(["SUCCEEDED"])` is an equality test against the one status. -/
lemma successRows_eq_filter (jobs : List JobRecord) :
    successRows jobs = jobs.filter (fun r => decide (r.job_status = "SUCCEEDED")) := by
  unfold successRows
  exact List.filter_congr (fun a _ => by simp)

/-- A filter is idempotent. -/
lemma filter_idem (p : α → Bool) : ∀ l : List α, (l.filter p).filter p = l.filter p := by
  intro l
  induction l with
  | nil => rfl
  | cons a l ih =>
    by_cases h : p a = true
    · simp [List.filter_cons, h, ih]
    · simp [List.filter_cons, h, ih]

/-- `get_summaries` reads the job table only through its successful subset. -/
lemma get_summaries_congr (mapping : List ModuleRow) (a b : List JobRecord)
    (h : successRows a = successRows b) :
    get_summaries mapping a = get_summaries mapping b := by
  simp [get_summaries, submoduleSummary, subRowsUnsorted, tempRows, h]

/-- Claim C8: both summary tables are computed exclusively over the
`SUCCEEDED` subset of the job table — restricting the input to that subset
changes nothing, and appending a `FAILED`/`RUNNING`/other-status row changes
nothing — and the result is a (deterministic) function of the module-mapping
file and the job table alone, as `get_summaries` takes only those two
arguments. -/
theorem c8_summaries_succeeded_only (mapping : List ModuleRow)
    (jobs : List JobRecord) :
    get_summaries mapping jobs =
        get_summaries mapping
          (jobs.filter (fun r => decide (r.job_status = "SUCCEEDED"))) ∧
      ∀ r : JobRecord, r.job_status ≠ "SUCCEEDED" →
        get_summaries mapping (jobs ++ [r]) = get_summaries mapping jobs := by
  constructor
  · apply get_summaries_congr
    rw [successRows_eq_filter jobs,
      successRows_eq_filter (jobs.filter (fun r => decide (r.job_status = "SUCCEEDED"))),
      filter_idem]
  · intro r hr
    apply get_summaries_congr
    unfold successRows
    rw [List.filter_append]
    have h0 : [r].filter (fun x => decide (x.job_status ∈ ["SUCCEEDED"])) = [] := by
      simp [hr]
    rw [h0, List.append_nil]

/-- A mapping with one module entry. -/
def mapW8 : List ModuleRow := [⟨"job-a", "mod-a", 1, "Main"⟩]

/-- A job table with one successful and one failed job. -/
def jobsW8 : List JobRecord :=
  [⟨"a", "job-a", "SUCCEEDED", some 0, some 3600000, "img", JVal.i 1, JVal.i 2,
     1, 1, "x", "t", none⟩,
   ⟨"b", "job-b", "FAILED", some 0, some 10, "img", JVal.i 1, JVal.i 2,
     1, 1, "y", "u", some "oom"⟩]

/-- A running job to append. -/
def runningW8 : JobRecord :=
  ⟨"c", "job-c", "RUNNING", none, none, "img", JVal.i 1, JVal.i 2,
   0, 1, "z", "v", none⟩

/-- Witness for C8 at a concrete mapping and table. -/
theorem c8_summaries_succeeded_only_witness :
    get_summaries mapW8 jobsW8 =
        get_summaries mapW8
          (jobsW8.filter (fun r => decide (r.job_status = "SUCCEEDED"))) ∧
      get_summaries mapW8 (jobsW8 ++ [runningW8]) = get_summaries mapW8 jobsW8 := by
  exact ⟨(c8_summaries_succeeded_only mapW8 jobsW8).1,
    (c8_summaries_succeeded_only mapW8 jobsW8).2 runningW8 (by decide)⟩

/- ### Claim C9 -/

/-- Averaging a nonempty sample list yields a nonempty table. -/
lemma groupbyMean_ne_nil (rows : List TaskSample) (h : rows ≠ []) :
    groupbyMean rows ≠ [] := by
  intro h0
  rw [groupbyMean] at h0
  have h1 : (rows.map sampleKey).dedup = [] := List.map_eq_nil_iff.mp h0
  have h2 : rows.map sampleKey = [] := (List.dedup_eq_nil _).mp h1
  exact h (List.map_eq_nil_iff.mp h2)

/-- If `get_resource_usage` returns no rows, nothing was accumulated. -/
lemma usage_nil_acc_nil (windows : List Window)
    (h : get_resource_usage windows = []) : (runWindows windows []).1 = [] := by
  by_cases hpos : 0 < (runWindows windows []).1.length
  · rw [get_resource_usage, if_pos hpos] at h
    exact absurd h (groupbyMean_ne_nil _ (List.length_pos.mp hpos))
  · exact List.eq_nil_of_length_eq_zero (by omega)

/-- An empty accumulation means the resource CSV write of line 219 was never
reached. -/
lemma resource_csv_none (windows : List Window)
    (h : get_resource_usage windows = []) : resource_usage_csv windows = none := by
  rw [resource_usage_csv, usage_nil_acc_nil windows h]
  rfl

/-- Claim C9: with a log group supplied, a nonempty job-details table and an
empty resource-usage result, `main` hits `output_df.to_csv` with `output_df`
never assigned (it is assigned only in the merge branch or in the no-log-group
`else` branch), so an unbound-local error escapes and no CSV — in particular
not the job-details CSV — is written. -/
theorem c9_unbound_output_df (cutoff : Int) (svc : String → List ListJobsPage)
    (fetch : String → Except Unit (List JobDetail)) (g : String)
    (windows : List Window) (mapping : List ModuleRow)
    (ids : List String) (df : List JobRecord)
    (h1 : get_batch_job_id_list cutoff svc = Except.ok ids) (h2 : ids ≠ [])
    (h3 : get_job_details fetch ids = Except.ok df) (h4 : df ≠ [])
    (h5 : get_resource_usage windows = []) :
    main cutoff svc fetch (some g) windows mapping =
      { emptyTrace with err := some PyErr.unboundLocal } := by
  have hE : ids.isEmpty = false := by
    cases ids with
    | nil => exact absurd rfl h2
    | cons a l => rfl
  rw [main, h1]
  simp only [hE, Bool.false_eq_true, if_false, h3]
  rw [if_pos ⟨List.length_pos.mpr h4, rfl⟩, h5]
  simp only [List.length_nil, Nat.lt_irrefl, if_false, resource_csv_none windows h5]
  rfl

/-- A queue with a single `SUCCEEDED` job. -/
def svcW9 : String → List ListJobsPage := fun st =>
  if st = "SUCCEEDED" then [⟨[⟨"job1", 5⟩], none⟩] else [⟨[], none⟩]

/-- The details table the witness run produces. -/
def dfW9 : List JobRecord :=
  [⟨"job1", "good-job", "SUCCEEDED", some 10, some 20, "img", JVal.i 4, JVal.i 8,
    0, 0, "", "", none⟩]

/-- Witness for C9: one job, a log group, and no query windows (so zero
resource rows): the run ends in the unbound-local error with nothing
written. -/
theorem c9_unbound_output_df_witness :
    main 0 svcW9 (fun _ => Except.ok [jobDetailOk]) (some "lg") [] [] =
      { emptyTrace with err := some PyErr.unboundLocal } := by
  exact c9_unbound_output_df 0 svcW9 (fun _ => Except.ok [jobDetailOk]) "lg" [] []
    ["job1"] dfW9 (by decide) (by decide) (by decide) (by decide) rfl

end BatchStatus
